import Mathlib

/-
  Verification development for the Introspect backend API.

  Shallow embedding of the core of the service: token-based authentication,
  the diagnostic review workflow, the notification delivery bookkeeping and
  the password-reset flow, as implemented by the route handlers
  (registerRoutes), the storage layer (DatabaseStorage) and the auth module
  (generateToken / verifyToken / authMiddleware / requireRole).

  Modelling conventions:
  - Timestamps are natural numbers (milliseconds of linear time); the
    JavaScript Date arithmetic setHours(getHours() + 1) is modelled as
    adding one hour of milliseconds, and token expiry now + 24h likewise.
  - The relational store is a record of lists; a drizzle update ... returning
    is modelled as mapping the update over the list and returning the updated
    image of the first row matched by the where clause.
  - bcrypt hashing and comparison are external: handlers take the hash and
    verify functions as parameters.
  - JWT signing is modelled by recording the signing secret inside the token
    value; verification compares that secret and checks expiry. Claims carry
    id, email and role as in the source payload.
  - zod body validation is the boundary layer: handlers receive typed bodies,
    and the schema constraints a claim depends on (password length, role
    enumeration) appear as explicit decidable conditions. The email format
    regex of zod is not modelled.
  - The patients table and its routes are not needed by any claim and are
    omitted from the state.
-/

/-- JSON values appearing in serialized user objects. -/
inductive JsonVal where
  | str (s : String)
  | num (n : Nat)
  | jbool (b : Bool)
  | jnull
  deriving Repr, DecidableEq

def optStrVal : Option String → JsonVal
  | some s => .str s
  | none => .jnull

def optNumVal : Option Nat → JsonVal
  | some n => .num n
  | none => .jnull

/-- One hour in milliseconds. -/
def hourMs : Nat := 60 * 60 * 1000

/-- Twenty-four hours in milliseconds, the JWT lifetime. -/
def day24Ms : Nat := 24 * hourMs

/-- Row of the users table (shared/schema.ts). -/
structure User where
  id : String
  email : String
  password : String
  fullName : String
  role : String := "health_worker"
  phoneNumber : Option String := none
  facilityName : Option String := none
  district : Option String := none
  isActive : Bool := true
  lastLoginAt : Option Nat := none
  createdAt : Nat := 0
  updatedAt : Nat := 0
  deriving Repr, DecidableEq

/-- Row of the diagnostics table (shared/schema.ts). -/
structure Diagnostic where
  id : String
  patientId : String
  submittedById : String
  imageUrl : String
  result : String
  parasiteCount : Option Nat := none
  aiConfidenceScore : Option Nat := none
  reviewStatus : String := "pending"
  reviewedById : Option String := none
  reviewedAt : Option Nat := none
  reviewNotes : Option String := none
  symptoms : Option String := none
  testDate : Nat := 0
  createdAt : Nat := 0
  deriving Repr, DecidableEq

/-- Row of the notifications table (shared/schema.ts). -/
structure Notification where
  id : String
  userId : Option String := none
  diagnosticId : Option String := none
  type : String
  recipient : String
  subject : Option String := none
  message : String
  status : String := "pending"
  priority : String := "routine"
  sentAt : Option Nat := none
  errorMessage : Option String := none
  retryCount : Nat := 0
  createdAt : Nat := 0
  deriving Repr, DecidableEq

/-- Row of the password_reset_tokens table (shared/schema.ts). -/
structure PasswordResetToken where
  id : String
  userId : String
  token : String
  expiresAt : Nat
  usedAt : Option Nat := none
  createdAt : Nat := 0
  deriving Repr, DecidableEq

/-- State of the persistence layer seen by DatabaseStorage. -/
structure Storage where
  users : List User := []
  diagnostics : List Diagnostic := []
  notifications : List Notification := []
  resetTokens : List PasswordResetToken := []
  deriving Repr, DecidableEq

/-
  Storage operations (DatabaseStorage).
-/

/-- Models the JavaScript expression x || null on an optional string: an
absent value and the empty string both become null. -/
def optOrNull : Option String → Option String
  | some v => if v = "" then none else some v
  | none => none

/-- DatabaseStorage.getUser. -/
def getUser (st : Storage) (id : String) : Option User :=
  st.users.find? (fun u => u.id == id)

/-- DatabaseStorage.getUserByEmail. -/
def getUserByEmail (st : Storage) (email : String) : Option User :=
  st.users.find? (fun u => u.email == email)

/-- Values inserted by storage.createUser: the validated registration data
with the already-hashed password. Columns omitted by insertUserSchema (id,
createdAt, lastLoginAt) and defaulted columns (role, isActive) are filled by
the database when absent. -/
structure InsertUser where
  email : String
  password : String
  fullName : String
  role : Option String := none
  phoneNumber : Option String := none
  facilityName : Option String := none
  district : Option String := none
  deriving Repr, DecidableEq

/-- Row produced by inserting an InsertUser: database defaults apply, in
particular role defaults to health_worker and isActive to true. -/
def mkUser (data : InsertUser) (id : String) (now : Nat) : User :=
  { id := id
    email := data.email
    password := data.password
    fullName := data.fullName
    role := data.role.getD "health_worker"
    phoneNumber := data.phoneNumber
    facilityName := data.facilityName
    district := data.district
    isActive := true
    lastLoginAt := none
    createdAt := now
    updatedAt := now }

/-- DatabaseStorage.createUser. -/
def createUser (st : Storage) (data : InsertUser) (id : String) (now : Nat) :
    User × Storage :=
  let u := mkUser data id now
  (u, { st with users := st.users ++ [u] })

/-- Partial update data accepted by DatabaseStorage.updateUser: the profile
fields of updateProfileSchema plus the password write done by the
reset-password handler. -/
structure UpdateUserData where
  fullName : Option String := none
  phoneNumber : Option String := none
  facilityName : Option String := none
  district : Option String := none
  password : Option String := none
  deriving Repr, DecidableEq

/-- Effect of the drizzle set clause of updateUser on one row: present fields
overwrite, absent fields keep the stored value, updatedAt is set to now. -/
def applyUserUpdate (u : User) (d : UpdateUserData) (now : Nat) : User :=
  { u with
    fullName := d.fullName.getD u.fullName
    phoneNumber := match d.phoneNumber with
      | some p => some p
      | none => u.phoneNumber
    facilityName := match d.facilityName with
      | some f => some f
      | none => u.facilityName
    district := match d.district with
      | some s => some s
      | none => u.district
    password := d.password.getD u.password
    updatedAt := now }

/-- DatabaseStorage.updateUser: update where id matches, returning the
updated image of the matched row. -/
def updateUser (st : Storage) (id : String) (d : UpdateUserData) (now : Nat) :
    Option User × Storage :=
  ((getUser st id).map (fun u => applyUserUpdate u d now),
   { st with users := (st.users.map
      (fun u => if u.id == id then applyUserUpdate u d now else u)) })

/-- DatabaseStorage.updateLastLogin. -/
def updateLastLogin (st : Storage) (id : String) (now : Nat) : Storage :=
  { st with users := (st.users.map
      (fun u => if u.id == id then { u with lastLoginAt := some now } else u)) }

/-- DatabaseStorage.getDiagnostic. -/
def getDiagnostic (st : Storage) (id : String) : Option Diagnostic :=
  st.diagnostics.find? (fun d => d.id == id)

/-- Values inserted by storage.createDiagnostic, as constructed by the submit
handler; insertDiagnosticSchema omits id, createdAt, reviewedAt and
reviewStatus, so those take database defaults. -/
structure InsertDiagnostic where
  patientId : String
  submittedById : String
  imageUrl : String
  result : String
  parasiteCount : Option Nat := none
  aiConfidenceScore : Option Nat := none
  symptoms : Option String := none
  testDate : Nat := 0
  deriving Repr, DecidableEq

/-- Row produced by inserting an InsertDiagnostic: reviewStatus takes its
database default pending, review columns default to null. -/
def mkDiagnostic (data : InsertDiagnostic) (id : String) (now : Nat) :
    Diagnostic :=
  { id := id
    patientId := data.patientId
    submittedById := data.submittedById
    imageUrl := data.imageUrl
    result := data.result
    parasiteCount := data.parasiteCount
    aiConfidenceScore := data.aiConfidenceScore
    reviewStatus := "pending"
    reviewedById := none
    reviewedAt := none
    reviewNotes := none
    symptoms := data.symptoms
    testDate := data.testDate
    createdAt := now }

/-- DatabaseStorage.createDiagnostic. -/
def createDiagnostic (st : Storage) (data : InsertDiagnostic) (id : String)
    (now : Nat) : Diagnostic × Storage :=
  let d := mkDiagnostic data id now
  (d, { st with diagnostics := st.diagnostics ++ [d] })

/-- Set clause of DatabaseStorage.updateDiagnosticReview: the requested
status, the reviewer, the review timestamp and the notes (reviewNotes ||
null) are written; no comparison with the current status is made. -/
def applyDiagnosticReview (d : Diagnostic) (reviewedById reviewStatus : String)
    (reviewNotes : Option String) (now : Nat) : Diagnostic :=
  { d with
    reviewStatus := reviewStatus
    reviewedById := some reviewedById
    reviewedAt := some now
    reviewNotes := optOrNull reviewNotes }

/-- DatabaseStorage.updateDiagnosticReview. -/
def updateDiagnosticReview (st : Storage) (id reviewedById reviewStatus : String)
    (reviewNotes : Option String) (now : Nat) : Option Diagnostic × Storage :=
  ((getDiagnostic st id).map
      (fun d => applyDiagnosticReview d reviewedById reviewStatus reviewNotes now),
   { st with diagnostics := (st.diagnostics.map
      (fun d => if d.id == id
        then applyDiagnosticReview d reviewedById reviewStatus reviewNotes now
        else d)) })

/-- DatabaseStorage.getNotification lookup used by updateNotificationStatus. -/
def getNotification (st : Storage) (id : String) : Option Notification :=
  st.notifications.find? (fun n => n.id == id)

/-- Values inserted by storage.createNotification; insertNotificationSchema
omits id, createdAt, sentAt, status and retryCount, so those take database
defaults. -/
structure InsertNotification where
  userId : Option String := none
  diagnosticId : Option String := none
  type : String
  recipient : String
  subject : Option String := none
  message : String
  priority : Option String := none
  deriving Repr, DecidableEq

/-- Row produced by inserting an InsertNotification: status defaults to
pending, retryCount to 0, sentAt and errorMessage to null, priority to
routine when absent. -/
def mkNotification (data : InsertNotification) (id : String) (now : Nat) :
    Notification :=
  { id := id
    userId := data.userId
    diagnosticId := data.diagnosticId
    type := data.type
    recipient := data.recipient
    subject := data.subject
    message := data.message
    status := "pending"
    priority := data.priority.getD "routine"
    sentAt := none
    errorMessage := none
    retryCount := 0
    createdAt := now }

/-- DatabaseStorage.createNotification. -/
def createNotification (st : Storage) (data : InsertNotification) (id : String)
    (now : Nat) : Notification × Storage :=
  let n := mkNotification data id now
  (n, { st with notifications := st.notifications ++ [n] })

/-- Set clause of DatabaseStorage.updateNotificationStatus: status is written
unconditionally, sentAt is now exactly when the new status is sent (null
otherwise), errorMessage is errorMessage || null, and retry_count is
incremented exactly when the new status is failed. -/
def applyNotificationStatus (n : Notification) (status : String)
    (errorMessage : Option String) (now : Nat) : Notification :=
  { n with
    status := status
    sentAt := if status = "sent" then some now else none
    errorMessage := optOrNull errorMessage
    retryCount := if status = "failed" then n.retryCount + 1 else n.retryCount }

/-- DatabaseStorage.updateNotificationStatus. -/
def updateNotificationStatus (st : Storage) (id status : String)
    (errorMessage : Option String) (now : Nat) : Option Notification × Storage :=
  ((getNotification st id).map
      (fun n => applyNotificationStatus n status errorMessage now),
   { st with notifications := (st.notifications.map
      (fun n => if n.id == id
        then applyNotificationStatus n status errorMessage now
        else n)) })

/-- DatabaseStorage.createPasswordResetToken. -/
def createPasswordResetToken (st : Storage) (userId tokenStr : String)
    (expiresAt : Nat) (id : String) (now : Nat) :
    PasswordResetToken × Storage :=
  let t : PasswordResetToken :=
    { id := id, userId := userId, token := tokenStr, expiresAt := expiresAt
      usedAt := none, createdAt := now }
  (t, { st with resetTokens := st.resetTokens ++ [t] })

/-- DatabaseStorage.getPasswordResetToken: lookup by the token string. -/
def getPasswordResetToken (st : Storage) (tokenStr : String) :
    Option PasswordResetToken :=
  st.resetTokens.find? (fun t => t.token == tokenStr)

/-- DatabaseStorage.markTokenAsUsed: sets usedAt to now on the row with the
given id. -/
def markTokenAsUsed (st : Storage) (id : String) (now : Nat) : Storage :=
  { st with resetTokens := (st.resetTokens.map
      (fun t => if t.id == id then { t with usedAt := some now } else t)) }

/-
  Auth module (server/auth.ts).
-/

/-- Decoded, verified payload of a session token, as signed by
generateToken. -/
structure Claims where
  id : String
  email : String
  role : String
  deriving Repr, DecidableEq

/-- A JWT value: the signed payload together with the secret it was signed
with; signature checking is modelled by comparing that secret. -/
structure Jwt where
  id : String
  email : String
  role : String
  exp : Nat
  signedWith : String
  deriving Repr, DecidableEq

/-- generateToken: signs id, email and role with the process secret and a
24 hour expiry. -/
def generateToken (secret : String) (now : Nat) (u : User) : Jwt :=
  { id := u.id, email := u.email, role := u.role
    exp := now + day24Ms, signedWith := secret }

/-- verifyToken: returns the claims when the signature matches and the token
is unexpired, null otherwise; never throws. -/
def verifyToken (secret : String) (now : Nat) (t : Jwt) : Option Claims :=
  if t.signedWith = secret ∧ now < t.exp then
    some { id := t.id, email := t.email, role := t.role }
  else none

/-- The Authorization header of a request, after the string-level parse: it
is absent, fails to start with the Bearer scheme, or carries a token. -/
inductive AuthHeader where
  | missing
  | malformed
  | bearer (t : Jwt)
  deriving Repr, DecidableEq

/-- Outcome of authMiddleware. -/
inductive AuthOutcome where
  | unauthorized
  | invalidTok
  | authenticated (c : Claims)
  deriving Repr, DecidableEq

/-- authMiddleware: rejects a missing or non-Bearer header with 401
UNAUTHORIZED, rejects a token that fails verifyToken with 401 INVALID_TOKEN,
and otherwise attaches the decoded claims to the request. It performs no
store lookup of the identity. -/
def authMiddleware (secret : String) (now : Nat) (h : AuthHeader) :
    AuthOutcome :=
  match h with
  | .missing => .unauthorized
  | .malformed => .unauthorized
  | .bearer t =>
    match verifyToken secret now t with
    | none => .invalidTok
    | some c => .authenticated c

/-- requireRole: exact membership of the role of the claims in the allowed
list. -/
def requireRole (roles : List String) (c : Claims) : Bool :=
  roles.contains c.role

/-
  Serialization of the user object in responses: the handlers write
  const (openbrace) password, ...userWithoutPassword (closebrace) = user and
  respond with userWithoutPassword, i.e. every enumerable field except
  password.
-/

/-- All enumerable fields of a users row, in declaration order, as they
would be serialized. -/
def userToFields (u : User) : List (String × JsonVal) :=
  [("id", .str u.id),
   ("email", .str u.email),
   ("password", .str u.password),
   ("fullName", .str u.fullName),
   ("role", .str u.role),
   ("phoneNumber", optStrVal u.phoneNumber),
   ("facilityName", optStrVal u.facilityName),
   ("district", optStrVal u.district),
   ("isActive", .jbool u.isActive),
   ("lastLoginAt", optNumVal u.lastLoginAt),
   ("createdAt", .num u.createdAt),
   ("updatedAt", .num u.updatedAt)]

/-- Rest destructuring that drops the password key. -/
def omitPassword (fields : List (String × JsonVal)) : List (String × JsonVal) :=
  fields.filter (fun kv => kv.1 != "password")

/-
  Sender capability (server/notifications.ts).
-/

/-- Result shape of sendSMS and sendEmail. -/
structure SendOutcome where
  success : Bool
  errorDetail : Option String := none
  deriving Repr, DecidableEq

/-- sendSMS: when Twilio is unconfigured it logs and returns success (dev
mode no-op); the configured branch of the source is a stub that also returns
success. -/
def sendSMS (twilioConfigured : Bool) (recipient msg : String) : SendOutcome :=
  if !twilioConfigured then { success := true }
  else { success := true }

/-
  Route handlers (registerRoutes).
-/

/-- Body of POST /api/auth/register after JSON decoding. -/
structure RegisterBody where
  email : String
  password : String
  fullName : String
  role : Option String := none
  phoneNumber : Option String := none
  facilityName : Option String := none
  district : Option String := none
  deriving Repr, DecidableEq

/-- Role constraint of registerSchema: the role key is optional and, when
present, must be one of the three enumerated roles. -/
def roleOk (r : Option String) : Prop :=
  match r with
  | none => True
  | some s => s = "health_worker" ∨ s = "admin" ∨ s = "super_admin"

instance (r : Option String) : Decidable (roleOk r) := by
  unfold roleOk
  cases r <;> infer_instance

/-- Constraints of registerSchema checked by zod on the body (the email
format regex is not modelled): password at least 8 characters, fullName at
least 2, role in the enumeration when present. -/
def registerBodyValid (b : RegisterBody) : Prop :=
  8 ≤ b.password.length ∧ 2 ≤ b.fullName.length ∧ roleOk b.role

instance (b : RegisterBody) : Decidable (registerBodyValid b) := by
  unfold registerBodyValid
  infer_instance

/-- The InsertUser passed to storage.createUser by the register handler: the
validated body with the hashed password. -/
def insertOfRegister (hash : String → String) (b : RegisterBody) : InsertUser :=
  { email := b.email
    password := hash b.password
    fullName := b.fullName
    role := b.role
    phoneNumber := b.phoneNumber
    facilityName := b.facilityName
    district := b.district }

/-- Response of POST /api/auth/register. -/
inductive RegisterResult where
  | validationError
  | userExists
  | created (userFields : List (String × JsonVal)) (token : Jwt)
  deriving Repr, DecidableEq

/-- Handler of POST /api/auth/register. The route carries no authMiddleware:
no credential of any kind is consulted. -/
def register (hash : String → String) (secret : String) (st : Storage)
    (b : RegisterBody) (newId : String) (now : Nat) : RegisterResult × Storage :=
  if registerBodyValid b then
    match getUserByEmail st b.email with
    | some _ => (.userExists, st)
    | none =>
      let p := createUser st (insertOfRegister hash b) newId now
      (.created (omitPassword (userToFields p.1)) (generateToken secret now p.1),
       p.2)
  else (.validationError, st)

/-- Body of POST /api/auth/login. -/
structure LoginBody where
  email : String
  password : String
  deriving Repr, DecidableEq

/-- Response of POST /api/auth/login. -/
inductive LoginResult where
  | validationError
  | invalidCredentials
  | ok (userFields : List (String × JsonVal)) (token : Jwt)
  deriving Repr, DecidableEq

/-- Handler of POST /api/auth/login: finds the user by email, verifies the
password, records the login time and responds with the user minus password
plus a fresh token. The response carries the row read before the lastLoginAt
update, as in the source. -/
def login (verify : String → String → Bool) (secret : String) (st : Storage)
    (b : LoginBody) (now : Nat) : LoginResult × Storage :=
  if 1 ≤ b.password.length then
    match getUserByEmail st b.email with
    | none => (.invalidCredentials, st)
    | some u =>
      if verify b.password u.password then
        (.ok (omitPassword (userToFields u)) (generateToken secret now u),
         updateLastLogin st u.id now)
      else (.invalidCredentials, st)
  else (.validationError, st)

/-- Response of POST /api/auth/forgot-password; both variants are the
success-shaped 200 body, distinguished here only by whether a token was
created. -/
inductive ForgotResult where
  | okNoAccount
  | okTokenCreated
  deriving Repr, DecidableEq

/-- Every forgot-password response is success-shaped. -/
def ForgotResult.isSuccessShaped : ForgotResult → Bool
  | .okNoAccount => true
  | .okTokenCreated => true

/-- Handler of POST /api/auth/forgot-password, after the email passed the
schema parse. tokenStr stands for the nanoid(32) random string and newId for
the generated row id. The source computes the expiry with
setHours(getHours() + 1), modelled as adding one hour. -/
def forgotPassword (st : Storage) (email : String) (tokenStr newId : String)
    (now : Nat) : ForgotResult × Storage :=
  match getUserByEmail st email with
  | none => (.okNoAccount, st)
  | some u =>
    (.okTokenCreated,
     (createPasswordResetToken st u.id tokenStr (now + hourMs) newId now).2)

/-- Body of POST /api/auth/reset-password. -/
structure ResetBody where
  token : String
  newPassword : String
  deriving Repr, DecidableEq

/-- Constraints of resetPasswordSchema: nonempty token, newPassword at least
8 characters. -/
def resetBodyValid (b : ResetBody) : Prop :=
  1 ≤ b.token.length ∧ 8 ≤ b.newPassword.length

instance (b : ResetBody) : Decidable (resetBodyValid b) := by
  unfold resetBodyValid
  infer_instance

/-- Response of POST /api/auth/reset-password. -/
inductive ResetResult where
  | validationError
  | invalidToken
  | tokenExpired
  | ok
  deriving Repr, DecidableEq

/-- Handler of POST /api/auth/reset-password: rejects an unknown or used
token with INVALID_TOKEN, then an expired one with TOKEN_EXPIRED, otherwise
re-hashes the secret of the owning identity and marks the token used. -/
def resetPassword (hash : String → String) (st : Storage) (b : ResetBody)
    (now : Nat) : ResetResult × Storage :=
  if resetBodyValid b then
    match getPasswordResetToken st b.token with
    | none => (.invalidToken, st)
    | some t =>
      if t.usedAt ≠ none then (.invalidToken, st)
      else if t.expiresAt < now then (.tokenExpired, st)
      else
        let st1 := (updateUser st t.userId
          { password := some (hash b.newPassword) } now).2
        (.ok, markTokenAsUsed st1 t.id now)
  else (.validationError, st)

/-- Response of GET /api/users/profile. -/
inductive ProfileResult where
  | unauthorized
  | invalidToken
  | userNotFound
  | ok (userFields : List (String × JsonVal))
  deriving Repr, DecidableEq

/-- Handler of GET /api/users/profile: authMiddleware, then a store lookup
of the id from the claims, then the user minus password. -/
def getProfileRoute (secret : String) (now : Nat) (st : Storage)
    (h : AuthHeader) : ProfileResult :=
  match authMiddleware secret now h with
  | .unauthorized => .unauthorized
  | .invalidTok => .invalidToken
  | .authenticated c =>
    match getUser st c.id with
    | none => .userNotFound
    | some u => .ok (omitPassword (userToFields u))

/-- Body of PUT /api/users/profile (updateProfileSchema). -/
structure UpdateProfileBody where
  fullName : Option String := none
  phoneNumber : Option String := none
  facilityName : Option String := none
  district : Option String := none
  deriving Repr, DecidableEq

/-- Constraint of updateProfileSchema: fullName, when present, has at least
2 characters. -/
def updateProfileBodyValid (b : UpdateProfileBody) : Prop :=
  match b.fullName with
  | some s => 2 ≤ s.length
  | none => True

instance (b : UpdateProfileBody) : Decidable (updateProfileBodyValid b) := by
  unfold updateProfileBodyValid
  cases b.fullName <;> infer_instance

/-- Response of PUT /api/users/profile. -/
inductive UpdateProfileResult where
  | unauthorized
  | invalidToken
  | validationError
  | userNotFound
  | ok (userFields : List (String × JsonVal))
  deriving Repr, DecidableEq

/-- Handler of PUT /api/users/profile. -/
def updateProfileRoute (secret : String) (now : Nat) (st : Storage)
    (h : AuthHeader) (b : UpdateProfileBody) : UpdateProfileResult × Storage :=
  match authMiddleware secret now h with
  | .unauthorized => (.unauthorized, st)
  | .invalidTok => (.invalidToken, st)
  | .authenticated c =>
    if updateProfileBodyValid b then
      let d : UpdateUserData :=
        { fullName := b.fullName
          phoneNumber := b.phoneNumber
          facilityName := b.facilityName
          district := b.district
          password := none }
      match updateUser st c.id d now with
      | (none, st1) => (.userNotFound, st1)
      | (some u, st1) => (.ok (omitPassword (userToFields u)), st1)
    else (.validationError, st)

/-- Body fields of POST /api/diagnostics/submit read by the handler, plus a
reviewStatus field a client may supply: the handler never reads it, and
insertDiagnosticSchema omits reviewStatus, so it can not reach the insert. -/
structure SubmitBody where
  patientId : String
  result : Option String := none
  parasiteCount : Option Nat := none
  aiConfidenceScore : Option Nat := none
  symptoms : Option String := none
  testDate : Option Nat := none
  reviewStatus : Option String := none
  deriving Repr, DecidableEq

/-- Response of POST /api/diagnostics/submit. -/
inductive SubmitResult where
  | unauthorized
  | invalidToken
  | noImage
  | created (d : Diagnostic)
  deriving Repr, DecidableEq

/-- Handler of POST /api/diagnostics/submit: authMiddleware, requires an
uploaded image, stores the image bytes for a locator (imageLocator stands
for the S3 url or the development placeholder), builds the insert data from
the enumerated body fields (result || pending, testDate defaulting to now)
and inserts. -/
def submitDiagnosticRoute (secret : String) (now : Nat) (st : Storage)
    (h : AuthHeader) (hasImage : Bool) (imageLocator : String) (b : SubmitBody)
    (newId : String) : SubmitResult × Storage :=
  match authMiddleware secret now h with
  | .unauthorized => (.unauthorized, st)
  | .invalidTok => (.invalidToken, st)
  | .authenticated c =>
    if !hasImage then (.noImage, st)
    else
      let data : InsertDiagnostic :=
        { patientId := b.patientId
          submittedById := c.id
          imageUrl := imageLocator
          result := (match b.result with
            | some r => if r = "" then "pending" else r
            | none => "pending")
          parasiteCount := b.parasiteCount
          aiConfidenceScore := b.aiConfidenceScore
          symptoms := b.symptoms
          testDate := b.testDate.getD now }
      let p := createDiagnostic st data newId now
      (.created p.1, p.2)

/-- Body of PUT /api/diagnostics/:id/review. -/
structure ReviewBody where
  reviewStatus : Option String := none
  reviewNotes : Option String := none
  deriving Repr, DecidableEq

/-- Response of PUT /api/diagnostics/:id/review. -/
inductive ReviewResult where
  | unauthorized
  | invalidToken
  | forbidden
  | missingStatus
  | notFound
  | ok (d : Diagnostic)
  deriving Repr, DecidableEq

/-- Handler of PUT /api/diagnostics/:id/review: authMiddleware, then
requireRole on admin and super_admin, then a falsy check on reviewStatus,
then storage.updateDiagnosticReview. No check relates the requested status
to the current one. -/
def reviewDiagnosticRoute (secret : String) (now : Nat) (st : Storage)
    (h : AuthHeader) (diagId : String) (b : ReviewBody) :
    ReviewResult × Storage :=
  match authMiddleware secret now h with
  | .unauthorized => (.unauthorized, st)
  | .invalidTok => (.invalidToken, st)
  | .authenticated c =>
    if requireRole ["admin", "super_admin"] c then
      match b.reviewStatus with
      | none => (.missingStatus, st)
      | some s =>
        if s = "" then (.missingStatus, st)
        else
          match updateDiagnosticReview st diagId c.id s b.reviewNotes now with
          | (none, st1) => (.notFound, st1)
          | (some d, st1) => (.ok d, st1)
    else (.forbidden, st)

/-- Body of POST /api/notifications/send (insertNotificationSchema minus the
userId the handler injects from the claims). -/
structure SendBody where
  diagnosticId : Option String := none
  type : String
  recipient : String
  subject : Option String := none
  message : String
  priority : Option String := none
  deriving Repr, DecidableEq

/-- Response of POST /api/notifications/send. -/
inductive SendResult where
  | unauthorized
  | invalidToken
  | created (n : Notification)
  deriving Repr, DecidableEq

/-- Handler of POST /api/notifications/send: authMiddleware, then
storage.createNotification on the validated body with the caller id. The
source only creates the record (the actual dispatch through the Sender is a
TODO); no call to sendSMS or sendEmail is made. -/
def sendNotificationRoute (secret : String) (now : Nat) (st : Storage)
    (h : AuthHeader) (b : SendBody) (newId : String) : SendResult × Storage :=
  match authMiddleware secret now h with
  | .unauthorized => (.unauthorized, st)
  | .invalidTok => (.invalidToken, st)
  | .authenticated c =>
    let data : InsertNotification :=
      { userId := some c.id
        diagnosticId := b.diagnosticId
        type := b.type
        recipient := b.recipient
        subject := b.subject
        message := b.message
        priority := b.priority }
    let p := createNotification st data newId now
    (.created p.1, p.2)

/-- Body of PUT /api/notifications/:id/status. -/
structure StatusBody where
  status : Option String := none
  errorMessage : Option String := none
  deriving Repr, DecidableEq

/-- Response of PUT /api/notifications/:id/status. -/
inductive StatusResult where
  | unauthorized
  | invalidToken
  | missingStatus
  | notFound
  | ok (n : Notification)
  deriving Repr, DecidableEq

/-- Handler of PUT /api/notifications/:id/status: authMiddleware, a falsy
check on status, then storage.updateNotificationStatus. The current status
of the intent is never consulted. -/
def notificationStatusRoute (secret : String) (now : Nat) (st : Storage)
    (h : AuthHeader) (notifId : String) (b : StatusBody) :
    StatusResult × Storage :=
  match authMiddleware secret now h with
  | .unauthorized => (.unauthorized, st)
  | .invalidTok => (.invalidToken, st)
  | .authenticated _ =>
    match b.status with
    | none => (.missingStatus, st)
    | some s =>
      if s = "" then (.missingStatus, st)
      else
        match updateNotificationStatus st notifId s b.errorMessage now with
        | (none, st1) => (.notFound, st1)
        | (some n, st1) => (.ok n, st1)

/-
  Theorems.
-/

/-- C6: for every notification intent, retryCount is 0 on creation; the set
clause of the status update increments it by exactly 1 when the new status
is failed and leaves it unchanged for any other status, so it never
decreases. -/
theorem retryCount_zero_then_monotone :
    (∀ (data : InsertNotification) (id : String) (now : Nat),
        (mkNotification data id now).retryCount = 0) ∧
    (∀ (n : Notification) (s : String) (e : Option String) (now : Nat),
        (applyNotificationStatus n s e now).retryCount
          = (if s = "failed" then n.retryCount + 1 else n.retryCount) ∧
        n.retryCount ≤ (applyNotificationStatus n s e now).retryCount) := by
  constructor
  · intro data id now
    rfl
  · intro n s e now
    refine ⟨rfl, ?_⟩
    unfold applyNotificationStatus
    dsimp only
    split <;> omega

/-- C8: whatever the submitter put in the body (including a reviewStatus
field), a successfully created diagnostic record has review status
pending. -/
theorem submitted_diagnostic_starts_pending
    (secret : String) (now : Nat) (st : Storage) (h : AuthHeader)
    (hasImage : Bool) (imageLocator : String) (b : SubmitBody) (newId : String)
    (d : Diagnostic)
    (hres : (submitDiagnosticRoute secret now st h hasImage imageLocator b
        newId).1 = .created d) :
    d.reviewStatus = "pending" := by
  unfold submitDiagnosticRoute at hres
  cases hauth : authMiddleware secret now h <;> rw [hauth] at hres
  · cases hres
  · cases hres
  · dsimp only at hres
    by_cases himg : hasImage
    · simp only [himg, Bool.not_true, Bool.false_eq_true, if_false,
        createDiagnostic] at hres
      injection hres with hd
      rw [← hd]
      rfl
    · simp [himg] at hres

def c8Header : AuthHeader :=
  .bearer { id := "u1", email := "hw@x.y", role := "health_worker"
            exp := 100, signedWith := "sec" }

def c8Body : SubmitBody :=
  { patientId := "p1", result := some "positive", aiConfidenceScore := some 94
    testDate := some 5, reviewStatus := some "verified" }

/-- Witness for C8: a concrete submission that tries to supply reviewStatus
verified still yields a record whose review status is pending. -/
theorem submitted_diagnostic_starts_pending_witness :
    (mkDiagnostic
      { patientId := "p1", submittedById := "u1", imageUrl := "loc"
        result := "positive", parasiteCount := none
        aiConfidenceScore := some 94, symptoms := none, testDate := 5 }
      "d1" 5).reviewStatus = "pending" :=
  submitted_diagnostic_starts_pending "sec" 5 {} c8Header true "loc" c8Body
    "d1" _ rfl

/-- C9: registration is unauthenticated (the handler consumes no
Authorization data) and accepts a caller-chosen role among health_worker,
admin and super_admin; the created identity carries the supplied role, or
health_worker when none was supplied. -/
theorem register_accepts_caller_chosen_role
    (hash : String → String) (secret : String) (st : Storage)
    (b : RegisterBody) (newId : String) (now : Nat)
    (hvalid : registerBodyValid b)
    (hfresh : getUserByEmail st b.email = none) :
    (register hash secret st b newId now).1
      = .created
          (omitPassword (userToFields (mkUser (insertOfRegister hash b) newId now)))
          (generateToken secret now (mkUser (insertOfRegister hash b) newId now)) ∧
    (register hash secret st b newId now).2.users
      = st.users ++ [mkUser (insertOfRegister hash b) newId now] ∧
    (mkUser (insertOfRegister hash b) newId now).role
      = b.role.getD "health_worker" := by
  unfold register
  rw [if_pos hvalid, hfresh]
  exact ⟨rfl, rfl, rfl⟩

def wHash : String → String := fun s => String.append s "#h"

def c9Body : RegisterBody :=
  { email := "eve@x.y", password := "password1", fullName := "Eve Adversary"
    role := some "admin" }

/-- Witness for C9: a concrete unauthenticated registration asking for the
admin role yields an identity whose role is admin. -/
theorem register_accepts_caller_chosen_role_witness :
    (mkUser (insertOfRegister wHash c9Body) "u1" 0).role = "admin" :=
  (register_accepts_caller_chosen_role wHash "sec" {} c9Body "u1" 0
    (by decide) rfl).2.2

/-- C7: the forgot-password handler responds success-shaped whether or not
the email maps to an identity; a reset token is created only when the
identity exists, and a created token expires exactly one hour after
issuance. -/
theorem forgot_password_enumeration_safe
    (st : Storage) (email tokenStr newId : String) (now : Nat) :
    ((forgotPassword st email tokenStr newId now).1.isSuccessShaped = true) ∧
    (getUserByEmail st email = none →
        forgotPassword st email tokenStr newId now = (.okNoAccount, st)) ∧
    (∀ u, getUserByEmail st email = some u →
        (forgotPassword st email tokenStr newId now).2.resetTokens
          = st.resetTokens ++
              [{ id := newId, userId := u.id, token := tokenStr
                 expiresAt := now + hourMs, usedAt := none, createdAt := now }]) := by
  refine ⟨?_, ?_, ?_⟩
  · unfold forgotPassword
    cases hu : getUserByEmail st email <;> rfl
  · intro hu
    unfold forgotPassword
    rw [hu]
  · intro u hu
    unfold forgotPassword
    rw [hu]
    rfl

def c7User : User :=
  { id := "u1", email := "a@b.c", password := "h", fullName := "Aa Bb" }

def c7State : Storage := { users := [c7User] }

/-- Witness for C7: with one registered identity, an unknown email changes
nothing while the registered email yields exactly one token expiring one
hour later. -/
theorem forgot_password_enumeration_safe_witness :
    forgotPassword c7State "nobody@x.y" "tok" "t1" 100 = (.okNoAccount, c7State) ∧
    (forgotPassword c7State "a@b.c" "tok" "t1" 100).2.resetTokens
      = [{ id := "t1", userId := "u1", token := "tok"
           expiresAt := 100 + hourMs, usedAt := none, createdAt := 100 }] :=
  ⟨(forgot_password_enumeration_safe c7State "nobody@x.y" "tok" "t1" 100).2.1 rfl,
   (forgot_password_enumeration_safe c7State "a@b.c" "tok" "t1" 100).2.2 c7User rfl⟩

/-- Lookup by token string commutes with a row update that preserves the
token string. -/
theorem find_map_preserves_token (l : List PasswordResetToken) (tok : String)
    (f : PasswordResetToken → PasswordResetToken)
    (hf : ∀ x, (f x).token = x.token) :
    (l.map f).find? (fun x => x.token == tok)
      = (l.find? (fun x => x.token == tok)).map f := by
  induction l with
  | nil => rfl
  | cons a l ih =>
    simp only [List.map_cons, List.find?_cons]
    have htok : ((f a).token == tok) = (a.token == tok) := by rw [hf]
    rw [htok]
    cases a.token == tok
    · exact ih
    · rfl

/-- The reset-token list is untouched by updateUser. -/
theorem updateUser_resetTokens (st : Storage) (id : String)
    (d : UpdateUserData) (now : Nat) :
    (updateUser st id d now).2.resetTokens = st.resetTokens := rfl

/-- C5: consumeReset fails with INVALID_TOKEN on an unknown or already used
token, with TOKEN_EXPIRED past the expiry, and otherwise re-hashes the
secret of the owning identity and marks the token used, so that a second
call with the same token string returns INVALID_TOKEN and changes
nothing. -/
theorem reset_password_single_use
    (hash : String → String) (st : Storage) (b : ResetBody) (now : Nat)
    (hvalid : resetBodyValid b) :
    (getPasswordResetToken st b.token = none →
        resetPassword hash st b now = (.invalidToken, st)) ∧
    (∀ t, getPasswordResetToken st b.token = some t → t.usedAt ≠ none →
        resetPassword hash st b now = (.invalidToken, st)) ∧
    (∀ t, getPasswordResetToken st b.token = some t → t.usedAt = none →
        t.expiresAt < now →
        resetPassword hash st b now = (.tokenExpired, st)) ∧
    (∀ t, getPasswordResetToken st b.token = some t → t.usedAt = none →
        ¬ t.expiresAt < now →
        (resetPassword hash st b now).1 = .ok ∧
        (∀ u, u ∈ (resetPassword hash st b now).2.users → u.id = t.userId →
            u.password = hash b.newPassword) ∧
        getPasswordResetToken (resetPassword hash st b now).2 b.token
          = some { t with usedAt := some now } ∧
        (∀ (b2 : ResetBody) (now2 : Nat), b2.token = b.token →
            resetBodyValid b2 →
            resetPassword hash (resetPassword hash st b now).2 b2 now2
              = (.invalidToken, (resetPassword hash st b now).2))) := by
  have hrw : ∀ st2, resetPassword hash st2 b now
      = (if resetBodyValid b then
          match getPasswordResetToken st2 b.token with
          | none => (.invalidToken, st2)
          | some t =>
            if t.usedAt ≠ none then (.invalidToken, st2)
            else if t.expiresAt < now then (.tokenExpired, st2)
            else
              (.ok, markTokenAsUsed
                ((updateUser st2 t.userId
                    { password := some (hash b.newPassword) } now).2) t.id now)
        else (.validationError, st2)) := fun st2 => rfl
  refine ⟨?_, ?_, ?_, ?_⟩
  · intro hnone
    rw [hrw, if_pos hvalid, hnone]
  · intro t ht hused
    rw [hrw, if_pos hvalid, ht]
    dsimp only
    rw [if_pos hused]
  · intro t ht hused hexp
    rw [hrw, if_pos hvalid, ht]
    dsimp only
    rw [if_neg (by simp [hused]), if_pos hexp]
  · intro t ht hused hexp
    have hstep : resetPassword hash st b now
        = (.ok, markTokenAsUsed
            ((updateUser st t.userId
                { password := some (hash b.newPassword) } now).2) t.id now) := by
      rw [hrw, if_pos hvalid, ht]
      dsimp only
      rw [if_neg (by simp [hused]), if_neg hexp]
    refine ⟨by rw [hstep], ?_, ?_, ?_⟩
    · intro u hu huid
      rw [hstep] at hu
      unfold markTokenAsUsed updateUser at hu
      dsimp only at hu
      rw [List.mem_map] at hu
      obtain ⟨u0, hu0, heq⟩ := hu
      by_cases hid : u0.id = t.userId
      · rw [if_pos (by simpa using hid)] at heq
        rw [← heq]
        rfl
      · rw [if_neg (by simpa using hid)] at heq
        rw [← heq] at huid
        exact absurd huid hid
    · rw [hstep]
      unfold markTokenAsUsed getPasswordResetToken
      dsimp only
      rw [updateUser_resetTokens st t.userId _ now]
      rw [find_map_preserves_token st.resetTokens b.token _
            (by intro x; split <;> rfl)]
      unfold getPasswordResetToken at ht
      rw [ht]
      simp
    · intro b2 now2 htok hvalid2
      have hfind2 : getPasswordResetToken (resetPassword hash st b now).2 b2.token
          = some { t with usedAt := some now } := by
        rw [htok, hstep]
        unfold markTokenAsUsed getPasswordResetToken
        dsimp only
        rw [updateUser_resetTokens st t.userId _ now]
        rw [find_map_preserves_token st.resetTokens b.token _
              (by intro x; split <;> rfl)]
        unfold getPasswordResetToken at ht
        rw [ht]
        simp
      have hrw2 : ∀ st2, resetPassword hash st2 b2 now2
          = (if resetBodyValid b2 then
              match getPasswordResetToken st2 b2.token with
              | none => (.invalidToken, st2)
              | some t2 =>
                if t2.usedAt ≠ none then (.invalidToken, st2)
                else if t2.expiresAt < now2 then (.tokenExpired, st2)
                else
                  (.ok, markTokenAsUsed
                    ((updateUser st2 t2.userId
                        { password := some (hash b2.newPassword) } now2).2)
                    t2.id now2)
            else (.validationError, st2)) := fun st2 => rfl
      rw [hrw2, if_pos hvalid2, hfind2]
      dsimp only
      rw [if_pos (by simp)]

def c5User : User :=
  { id := "u1", email := "a@b.c", password := "oldhash", fullName := "Aa Bb" }

def c5Token : PasswordResetToken :=
  { id := "t1", userId := "u1", token := "tok", expiresAt := 1000 }

def c5State : Storage := { users := [c5User], resetTokens := [c5Token] }

def c5Body : ResetBody := { token := "tok", newPassword := "newpassword" }

def c5Body2 : ResetBody := { token := "tok", newPassword := "otherpassword" }

/-- Witness for C5: a concrete valid consumption succeeds, and replaying the
same token string afterwards yields INVALID_TOKEN without a state change. -/
theorem reset_password_single_use_witness :
    (resetPassword wHash c5State c5Body 500).1 = .ok ∧
    resetPassword wHash (resetPassword wHash c5State c5Body 500).2 c5Body2 600
      = (.invalidToken, (resetPassword wHash c5State c5Body 500).2) := by
  have h := (reset_password_single_use wHash c5State c5Body 500
    (by decide)).2.2.2 c5Token rfl rfl (by decide)
  exact ⟨h.1, h.2.2.2 c5Body2 600 rfl (by decide)⟩

/-- A password key never survives the rest destructuring. -/
theorem omitPassword_no_password (fl : List (String × JsonVal)) (v : JsonVal) :
    ("password", v) ∉ omitPassword fl := by
  intro hmem
  unfold omitPassword at hmem
  rw [List.mem_filter] at hmem
  simp at hmem

/-- C10: every success response of register, login, get-profile and
update-profile carries the user object with the password field stripped:
for every input, no password key appears in the returned field list. -/
theorem password_digest_never_in_responses
    (hash : String → String) (verify : String → String → Bool)
    (secret : String) :
    (∀ (st : Storage) (b : RegisterBody) (newId : String) (now : Nat)
        (fl : List (String × JsonVal)) (tok : Jwt),
        (register hash secret st b newId now).1 = .created fl tok →
        ∀ v, ("password", v) ∉ fl) ∧
    (∀ (st : Storage) (b : LoginBody) (now : Nat)
        (fl : List (String × JsonVal)) (tok : Jwt),
        (login verify secret st b now).1 = .ok fl tok →
        ∀ v, ("password", v) ∉ fl) ∧
    (∀ (now : Nat) (st : Storage) (h : AuthHeader)
        (fl : List (String × JsonVal)),
        getProfileRoute secret now st h = .ok fl →
        ∀ v, ("password", v) ∉ fl) ∧
    (∀ (now : Nat) (st : Storage) (h : AuthHeader) (b : UpdateProfileBody)
        (fl : List (String × JsonVal)),
        (updateProfileRoute secret now st h b).1 = .ok fl →
        ∀ v, ("password", v) ∉ fl) := by
  refine ⟨?_, ?_, ?_, ?_⟩
  · intro st b newId now fl tok hres v
    unfold register at hres
    by_cases hv : registerBodyValid b
    · rw [if_pos hv] at hres
      cases hu : getUserByEmail st b.email <;> rw [hu] at hres
      · dsimp only [createUser] at hres
        injection hres with hfl htok
        rw [← hfl]
        exact omitPassword_no_password _ v
      · cases hres
    · rw [if_neg hv] at hres
      cases hres
  · intro st b now fl tok hres v
    unfold login at hres
    by_cases hv : 1 ≤ b.password.length
    · rw [if_pos hv] at hres
      cases hu : getUserByEmail st b.email <;> rw [hu] at hres <;>
        dsimp only at hres
      · cases hres
      · rename_i u
        by_cases hverify : verify b.password u.password
        · rw [if_pos hverify] at hres
          injection hres with hfl htok
          rw [← hfl]
          exact omitPassword_no_password _ v
        · rw [if_neg hverify] at hres
          cases hres
    · rw [if_neg hv] at hres
      cases hres
  · intro now st h fl hres v
    unfold getProfileRoute at hres
    cases hauth : authMiddleware secret now h <;> rw [hauth] at hres <;>
      dsimp only at hres
    · cases hres
    · cases hres
    · rename_i c
      cases hu : getUser st c.id <;> rw [hu] at hres <;> dsimp only at hres
      · cases hres
      · injection hres with hfl
        rw [← hfl]
        exact omitPassword_no_password _ v
  · intro now st h b fl hres v
    unfold updateProfileRoute at hres
    cases hauth : authMiddleware secret now h <;> rw [hauth] at hres <;>
      dsimp only at hres
    · cases hres
    · cases hres
    · rename_i c
      by_cases hv : updateProfileBodyValid b
      · rw [if_pos hv] at hres
        cases hupd : updateUser st c.id
            { fullName := b.fullName, phoneNumber := b.phoneNumber
              facilityName := b.facilityName, district := b.district
              password := none } now with
        | mk found st1 =>
          rw [hupd] at hres
          cases found <;> dsimp only at hres
          · cases hres
          · injection hres with hfl
            rw [← hfl]
            exact omitPassword_no_password _ v
      · rw [if_neg hv] at hres
        cases hres

def wVerify : String → String → Bool := fun p d => wHash p == d

def c10User : User :=
  { id := "u1", email := "a@b.c", password := "secrethash", fullName := "Aa Bb" }

def c10State : Storage := { users := [c10User] }

def c10Header : AuthHeader :=
  .bearer { id := "u1", email := "a@b.c", role := "health_worker"
            exp := 100, signedWith := "sec" }

/-- Witness for C10: the profile response for a concrete stored user carries
no password key. -/
theorem password_digest_never_in_responses_witness :
    ("password", JsonVal.str "secrethash")
      ∉ omitPassword (userToFields c10User) :=
  (password_digest_never_in_responses wHash wVerify "sec").2.2.1 5 c10State
    c10Header (omitPassword (userToFields c10User)) rfl (JsonVal.str "secrethash")

/-
  C1: the review transition and monotonicity.
-/

def c1Admin : User :=
  { id := "a1", email := "admin@x.y", password := "h", fullName := "Ad Min"
    role := "admin" }

def c1Diag : Diagnostic :=
  { id := "d1", patientId := "p1", submittedById := "u1", imageUrl := "img"
    result := "positive", aiConfidenceScore := some 94
    reviewStatus := "verified", reviewedById := some "a1"
    reviewedAt := some 10, testDate := 5, createdAt := 5 }

def c1State : Storage := { users := [c1Admin], diagnostics := [c1Diag] }

/-- The record produced by the backward review at time 20. -/
def c1DiagAfter : Diagnostic :=
  { c1Diag with
    reviewStatus := "pending"
    reviewedById := some "a1"
    reviewedAt := some 20
    reviewNotes := none }

/-- C1, evaluated at the failing input: an admin review request moving a
verified record back to pending is accepted with a 200 response, and the
stored record regresses to pending — no monotonicity check exists in
updateDiagnosticReview or its route. -/
theorem review_backward_transition_accepted :
    c1Diag.reviewStatus = "verified" ∧
    (reviewDiagnosticRoute "sec" 20 c1State
        (.bearer (generateToken "sec" 0 c1Admin)) "d1"
        { reviewStatus := some "pending", reviewNotes := none }).1
      = .ok c1DiagAfter ∧
    (reviewDiagnosticRoute "sec" 20 c1State
        (.bearer (generateToken "sec" 0 c1Admin)) "d1"
        { reviewStatus := some "pending", reviewNotes := none }).2.diagnostics
      = [c1DiagAfter] := by
  refine ⟨rfl, ?_, ?_⟩ <;> decide

/-
  C2: transitions out of the sent state.
-/

def c2Caller : User :=
  { id := "u1", email := "hw@x.y", password := "h", fullName := "Hw One" }

def c2Notif : Notification :=
  { id := "n1", userId := some "u1", type := "sms", recipient := "+26711111"
    message := "alert", status := "sent", sentAt := some 10, createdAt := 1 }

def c2State : Storage := { users := [c2Caller], notifications := [c2Notif] }

/-- C2 counterexample: a status update on an intent whose status is sent is
not rejected; it answers 200 and overwrites the stored intent, here moving
it back to pending and erasing sentAt. -/
theorem sent_intent_transition_not_rejected :
    c2Notif.status = "sent" ∧
    (notificationStatusRoute "sec" 20 c2State
        (.bearer (generateToken "sec" 0 c2Caller)) "n1"
        { status := some "pending", errorMessage := none }).1
      = .ok { c2Notif with status := "pending", sentAt := none } ∧
    (notificationStatusRoute "sec" 20 c2State
        (.bearer (generateToken "sec" 0 c2Caller)) "n1"
        { status := some "pending", errorMessage := none }).2.notifications
      ≠ [c2Notif] := by
  refine ⟨rfl, ?_, ?_⟩ <;> decide

/-- C2 amended: the status-update operation never consults the current
status; on an intent in the sent state any authenticated non-empty status
request is accepted and overwrites the record through the set clause of
updateNotificationStatus. -/
theorem sent_intent_accepts_any_transition
    (secret : String) (now : Nat) (st : Storage) (h : AuthHeader)
    (id s : String) (e : Option String) (c : Claims) (n : Notification)
    (hauth : authMiddleware secret now h = .authenticated c)
    (hs : s ≠ "")
    (hfind : getNotification st id = some n)
    (hsent : n.status = "sent") :
    n.status = "sent" ∧
    (notificationStatusRoute secret now st h id
        { status := some s, errorMessage := e }).1
      = .ok (applyNotificationStatus n s e now) ∧
    (applyNotificationStatus n s e now).status = s := by
  refine ⟨hsent, ?_, rfl⟩
  unfold notificationStatusRoute
  rw [hauth]
  dsimp only
  rw [if_neg hs]
  unfold updateNotificationStatus
  rw [hfind]
  rfl

/-- Witness for the amended C2: the concrete sent intent accepts the move
back to pending. -/
theorem sent_intent_accepts_any_transition_witness :
    c2Notif.status = "sent" ∧
    (notificationStatusRoute "sec" 20 c2State
        (.bearer (generateToken "sec" 0 c2Caller)) "n1"
        { status := some "failed", errorMessage := some "boom" }).1
      = .ok (applyNotificationStatus c2Notif "failed" (some "boom") 20) ∧
    (applyNotificationStatus c2Notif "failed" (some "boom") 20).status
      = "failed" :=
  sent_intent_accepts_any_transition "sec" 20 c2State
    (.bearer (generateToken "sec" 0 c2Caller)) "n1" "failed" (some "boom")
    { id := "u1", email := "hw@x.y", role := "health_worker" } c2Notif
    (by decide) (by decide) (by decide) rfl

/-
  C3: deactivated identities and token validation.
-/

def c3User : User :=
  { id := "u9", email := "w@x.y", password := "h", fullName := "Wo Rker"
    isActive := false }

def c3State : Storage := { users := [c3User] }

/-- C3 counterexample: a deactivated identity (isActive false) holds an
unexpired token; authMiddleware accepts it and the profile route serves the
request instead of refusing it. -/
theorem deactivated_identity_token_accepted :
    c3User.isActive = false ∧
    authMiddleware "sec" 1000 (.bearer (generateToken "sec" 0 c3User))
      = .authenticated { id := "u9", email := "w@x.y", role := "health_worker" } ∧
    getProfileRoute "sec" 1000 c3State (.bearer (generateToken "sec" 0 c3User))
      = .ok (omitPassword (userToFields c3User)) := by
  refine ⟨rfl, ?_, ?_⟩ <;> decide

/-- C3 amended: authentication is a pure function of the token signature and
expiry; it never reads the store, so a token of an identity whose active
flag is false is accepted until its expiry. -/
theorem auth_ignores_active_flag
    (secret : String) (issuedAt now : Nat) (u : User)
    (hinactive : u.isActive = false)
    (hfresh : now < issuedAt + day24Ms) :
    u.isActive = false ∧
    authMiddleware secret now (.bearer (generateToken secret issuedAt u))
      = .authenticated { id := u.id, email := u.email, role := u.role } := by
  refine ⟨hinactive, ?_⟩
  unfold authMiddleware generateToken verifyToken
  dsimp only
  rw [if_pos ⟨rfl, hfresh⟩]

/-- Witness for the amended C3: the concrete deactivated identity passes
authentication one second after issuance. -/
theorem auth_ignores_active_flag_witness :
    c3User.isActive = false ∧
    authMiddleware "sec" 1000 (.bearer (generateToken "sec" 0 c3User))
      = .authenticated { id := c3User.id, email := c3User.email
                         role := c3User.role } :=
  auth_ignores_active_flag "sec" 0 1000 c3User rfl (by decide)

/-
  C4: the send pipeline and delivery status.
-/

def c4Caller : User :=
  { id := "u1", email := "hw@x.y", password := "h", fullName := "Hw One" }

def c4State : Storage := { users := [c4Caller] }

def c4Body : SendBody :=
  { type := "sms", recipient := "+26711111", message := "urgent alert"
    priority := some "urgent" }

def c4Insert : InsertNotification :=
  { userId := some "u1", type := "sms", recipient := "+26711111"
    message := "urgent alert", priority := some "urgent" }

/-- C4 counterexample: with the Sender unconfigured (sendSMS would return
trivial success), a valid urgent SMS send request creates the intent and
leaves it in delivery status pending, not sent: the handler never attempts
delivery. -/
theorem send_request_stays_pending :
    sendSMS false "+26711111" "urgent alert" = { success := true } ∧
    (sendNotificationRoute "sec" 20 c4State
        (.bearer (generateToken "sec" 0 c4Caller)) c4Body "n1").1
      = .created (mkNotification c4Insert "n1" 20) ∧
    (mkNotification c4Insert "n1" 20).status = "pending" ∧
    (mkNotification c4Insert "n1" 20).status ≠ "sent" ∧
    (mkNotification c4Insert "n1" 20).retryCount = 0 := by
  refine ⟨rfl, ?_, rfl, ?_, rfl⟩ <;> decide

/-- C4 amended: the dispatcher creates the intent record in pending delivery
status with retry count 0 and does not attempt delivery; the resulting
intent stays pending with no sent timestamp, while the unconfigured Sender
capability would answer trivial success if it were called. -/
theorem send_creates_pending_without_dispatch
    (secret : String) (now : Nat) (st : Storage) (h : AuthHeader)
    (b : SendBody) (newId : String) (c : Claims)
    (hauth : authMiddleware secret now h = .authenticated c) :
    (sendNotificationRoute secret now st h b newId).1
      = .created (mkNotification
          { userId := some c.id, diagnosticId := b.diagnosticId
            type := b.type, recipient := b.recipient, subject := b.subject
            message := b.message, priority := b.priority } newId now) ∧
    (mkNotification
        { userId := some c.id, diagnosticId := b.diagnosticId
          type := b.type, recipient := b.recipient, subject := b.subject
          message := b.message, priority := b.priority } newId now).status
      = "pending" ∧
    (mkNotification
        { userId := some c.id, diagnosticId := b.diagnosticId
          type := b.type, recipient := b.recipient, subject := b.subject
          message := b.message, priority := b.priority } newId now).retryCount
      = 0 ∧
    (mkNotification
        { userId := some c.id, diagnosticId := b.diagnosticId
          type := b.type, recipient := b.recipient, subject := b.subject
          message := b.message, priority := b.priority } newId now).sentAt
      = none ∧
    (sendNotificationRoute secret now st h b newId).2.notifications
      = st.notifications ++
          [mkNotification
            { userId := some c.id, diagnosticId := b.diagnosticId
              type := b.type, recipient := b.recipient, subject := b.subject
              message := b.message, priority := b.priority } newId now] ∧
    (∀ r m, sendSMS false r m = { success := true }) := by
  have hroute : sendNotificationRoute secret now st h b newId
      = (.created (mkNotification
            { userId := some c.id, diagnosticId := b.diagnosticId
              type := b.type, recipient := b.recipient, subject := b.subject
              message := b.message, priority := b.priority } newId now),
         { st with notifications := st.notifications ++
            [mkNotification
              { userId := some c.id, diagnosticId := b.diagnosticId
                type := b.type, recipient := b.recipient, subject := b.subject
                message := b.message, priority := b.priority } newId now] }) := by
    unfold sendNotificationRoute
    rw [hauth]
    rfl
  refine ⟨by rw [hroute], rfl, rfl, rfl, by rw [hroute], fun r m => rfl⟩

/-- Witness for the amended C4: the concrete send request yields the pending
intent. -/
theorem send_creates_pending_without_dispatch_witness :
    (sendNotificationRoute "sec" 20 c4State
        (.bearer (generateToken "sec" 0 c4Caller)) c4Body "n1").1
      = .created (mkNotification
          { userId := some "u1", diagnosticId := none, type := "sms"
            recipient := "+26711111", subject := none
            message := "urgent alert", priority := some "urgent" } "n1" 20) :=
  (send_creates_pending_without_dispatch "sec" 20 c4State
    (.bearer (generateToken "sec" 0 c4Caller)) c4Body "n1"
    { id := "u1", email := "hw@x.y", role := "health_worker" } (by decide)).1






